import Mathlib

/-!
Verification of the VDA5050 pydantic message library (`pydantic_models/common.py`
and `pydantic_models/validate.py`) against its natural-language specification.

The Python code is shallowly embedded: JSON values are a Lean inductive (numbers
as rationals — every IEEE double that occurs in these messages is a rational, and
float comparison agrees with rational comparison), pydantic models are Lean
structures, and the envelope transcoder functions `to_model` / `from_model` /
`create_message` / `get_model_class` are Lean functions on parsed JSON values.
Python's `json.loads` / `json.dumps` text layer is abstracted as the bijection
between envelope text and its parsed value; a `json.loads` failure is modelled by
passing `none` to the decoder.  Python exceptions are modelled by `Except PyErr`
where `PyErr` records the exception type name and message.
-/

namespace VDA5050

/-- A parsed JSON value (the result of Python's `json.loads`). Numbers are
rationals: both JSON ints and the IEEE doubles Python uses are exact rationals,
and the comparisons performed by the validators agree with rational comparison. -/
inductive Json where
  | null : Json
  | bool (b : Bool) : Json
  | num (q : ℚ) : Json
  | str (s : String) : Json
  | arr (elems : List Json) : Json
  | obj (fields : List (String × Json)) : Json

namespace Json

/-- `message.get(k)` on a parsed JSON object: `none` when the value is not an
object or the key is absent (Python's `dict.get` returns `None`). -/
def getField : Json → String → Option Json
  | obj fields, k => fields.lookup k
  | _, _ => none

/-- Python truthiness of a parsed JSON value (`bool(x)`): `None`, `False`, `0`,
`""`, `[]` and `{}` are falsy. -/
def truthy : Json → Bool
  | null => false
  | bool b => b
  | num q => q != 0
  | str s => s != ""
  | arr elems => !elems.isEmpty
  | obj fields => !fields.isEmpty

end Json

/-- A Python exception surfaced to the caller: its class name and its message. -/
structure PyErr where
  etype : String
  msg : String
deriving DecidableEq, Repr

/-- Truthiness of `dict.get`'s result: a missing key yields Python `None`, which
is falsy. -/
def truthyOpt : Option Json → Bool
  | none => false
  | some j => j.truthy

/-- A pydantic field-validation failure (pydantic's `ValidationError`; its
detailed message is abstracted to the offending field's name, which no claim
inspects further). -/
def fieldErr (field : String) : PyErr :=
  ⟨"ValidationError", "validation error for field " ++ field⟩

/-- The pydantic failure raised when `model_validate` is given a non-dict value. -/
def notDictErr : PyErr :=
  ⟨"ValidationError", "input should be a valid dictionary"⟩

/-- Python `AttributeError`, raised e.g. when `model_validate` or
`model_dump_json` is accessed on an `Enum` class or value. -/
def attrErr (cls meth : String) : PyErr :=
  ⟨"AttributeError", cls ++ " has no attribute " ++ meth⟩

namespace Json

/-- Required `str` field of a pydantic model being validated from a dict. -/
def reqStrField (j : Json) (field : String) : Except PyErr String :=
  match j.getField field with
  | some (str s) => .ok s
  | _ => .error (fieldErr field)

/-- Optional `str` field: absent or `null` yields `None`. -/
def optStrField (j : Json) (field : String) : Except PyErr (Option String) :=
  match j.getField field with
  | none => .ok none
  | some null => .ok none
  | some (str s) => .ok (some s)
  | some _ => .error (fieldErr field)

/-- Required `float` field (a JSON number; ints coerce to floats). -/
def reqNumField (j : Json) (field : String) : Except PyErr ℚ :=
  match j.getField field with
  | some (num q) => .ok q
  | _ => .error (fieldErr field)

/-- Required `float` field carrying a `ge` bound (pydantic `Field(..., ge=lo)`). -/
def reqNumFieldGe (j : Json) (field : String) (lo : ℚ) : Except PyErr ℚ :=
  match j.getField field with
  | some (num q) => if lo ≤ q then .ok q else .error (fieldErr field)
  | _ => .error (fieldErr field)

/-- Optional `float` field with a `ge` bound (`Field(None, ge=lo)`). -/
def optNumFieldGe (j : Json) (field : String) (lo : ℚ) : Except PyErr (Option ℚ) :=
  match j.getField field with
  | none => .ok none
  | some null => .ok none
  | some (num q) => if lo ≤ q then .ok (some q) else .error (fieldErr field)
  | some _ => .error (fieldErr field)

/-- Optional `float` field with both `ge` and `le` bounds
(`Field(None, ge=lo, le=hi)`). -/
def optNumFieldRange (j : Json) (field : String) (lo hi : ℚ) :
    Except PyErr (Option ℚ) :=
  match j.getField field with
  | none => .ok none
  | some null => .ok none
  | some (num q) => if lo ≤ q ∧ q ≤ hi then .ok (some q) else .error (fieldErr field)
  | some _ => .error (fieldErr field)

/-- Required `int` field with a `ge` bound (`Field(..., ge=lo)`); an integral
number is accepted, a fractional one is not. -/
def reqIntFieldGe (j : Json) (field : String) (lo : ℤ) : Except PyErr ℤ :=
  match j.getField field with
  | some (num q) => if q.den = 1 ∧ lo ≤ q.num then .ok q.num else .error (fieldErr field)
  | _ => .error (fieldErr field)

/-- Required `int` field without bounds. -/
def reqIntField (j : Json) (field : String) : Except PyErr ℤ :=
  match j.getField field with
  | some (num q) => if q.den = 1 then .ok q.num else .error (fieldErr field)
  | _ => .error (fieldErr field)

/-- Required `bool` field. -/
def reqBoolField (j : Json) (field : String) : Except PyErr Bool :=
  match j.getField field with
  | some (bool b) => .ok b
  | _ => .error (fieldErr field)

/-- Serialization of an optional string field (`model_dump_json` emits `null`
for an absent optional field). -/
def dumpOptStr : Option String → Json
  | none => null
  | some s => str s

/-- Serialization of an optional float field. -/
def dumpOptNum : Option ℚ → Json
  | none => null
  | some q => num q

end Json

/-! ## The entity types of `pydantic_models/common.py` -/

/-- `BlockingType` (common.py lines 19-29): the closed enumeration
`NONE | SOFT | HARD`. -/
inductive BlockingType where
  | NONE : BlockingType
  | SOFT : BlockingType
  | HARD : BlockingType
deriving DecidableEq, Repr

/-- The string tag an enum member serializes to. -/
def BlockingType.toStr : BlockingType → String
  | .NONE => "NONE"
  | .SOFT => "SOFT"
  | .HARD => "HARD"

/-- Enum membership check performed when validating a `BlockingType` field. -/
def BlockingType.ofStr (s : String) : Option BlockingType :=
  if s = "NONE" then some .NONE
  else if s = "SOFT" then some .SOFT
  else if s = "HARD" then some .HARD
  else none

/-- The value of an `ActionParameter` (common.py line 44): the untagged union
`Union[List[Any], bool, float, str, Dict[str, Any]]`, one variant per
alternative, in the annotation's order: array, boolean, number, string, object. -/
inductive ParamValue where
  | arr (elems : List Json) : ParamValue
  | boolean (b : Bool) : ParamValue
  | num (q : ℚ) : ParamValue
  | strv (s : String) : ParamValue
  | obj (fields : List (String × Json)) : ParamValue

namespace ParamValue

/-- Structural matcher for the `List[Any]` union alternative. -/
def matchArr : Json → Option ParamValue
  | .arr elems => some (arr elems)
  | _ => none

/-- Structural matcher for the `bool` union alternative. -/
def matchBool : Json → Option ParamValue
  | .bool b => some (boolean b)
  | _ => none

/-- Structural matcher for the `float` union alternative (JSON ints included). -/
def matchNum : Json → Option ParamValue
  | .num q => some (num q)
  | _ => none

/-- Structural matcher for the `str` union alternative. -/
def matchStr : Json → Option ParamValue
  | .str s => some (strv s)
  | _ => none

/-- Structural matcher for the `Dict[str, Any]` union alternative. -/
def matchObj : Json → Option ParamValue
  | .obj fields => some (obj fields)
  | _ => none

/-- Decoding of the untagged union: the alternatives are tried in the
annotation's order `List[Any], bool, float, str, Dict[str, Any]` and the first
structural match is accepted; a value matching none (only `null` here) is a
validation failure. -/
def ofJson (j : Json) : Except PyErr ParamValue :=
  match matchArr j with
  | some v => .ok v
  | none =>
  match matchBool j with
  | some v => .ok v
  | none =>
  match matchNum j with
  | some v => .ok v
  | none =>
  match matchStr j with
  | some v => .ok v
  | none =>
  match matchObj j with
  | some v => .ok v
  | none => .error (fieldErr "value")

/-- Serialization: each variant is emitted back as the concrete JSON shape it
holds, untagged. -/
def dump : ParamValue → Json
  | arr elems => .arr elems
  | boolean b => .bool b
  | num q => .num q
  | strv s => .str s
  | obj fields => .obj fields

end ParamValue

/-- `ActionParameter` (common.py lines 32-48). -/
structure ActionParameter where
  key : String
  value : ParamValue

/-- Validation of an `ActionParameter` from a structured value (pydantic
`model_validate`): `key` must be a string, `value` any union alternative. -/
def ActionParameter.model_validate (j : Json) : Except PyErr ActionParameter :=
  match j with
  | .obj _ => do
    let key ← j.reqStrField "key"
    match j.getField "value" with
    | some v => do
      let value ← ParamValue.ofJson v
      return ⟨key, value⟩
    | none => .error (fieldErr "value")
  | _ => .error notDictErr

/-- Serialization of an `ActionParameter` (value level of `model_dump_json`). -/
def ActionParameter.model_dump_json (p : ActionParameter) : Json :=
  .obj [("key", .str p.key), ("value", p.value.dump)]

/-- Validation of a JSON array as `List[ActionParameter]`. -/
def ActionParameter.validateList : List Json → Except PyErr (List ActionParameter)
  | [] => .ok []
  | x :: xs => do
    let p ← ActionParameter.model_validate x
    let ps ← ActionParameter.validateList xs
    return p :: ps

/-- `Action` (common.py lines 51-77). -/
structure Action where
  actionType : String
  actionId : String
  actionDescription : Option String
  blockingType : BlockingType
  actionParameters : Option (List ActionParameter)

/-- Validation of an `Action` from a structured value. -/
def Action.model_validate (j : Json) : Except PyErr Action :=
  match j with
  | .obj _ => do
    let actionType ← j.reqStrField "actionType"
    let actionId ← j.reqStrField "actionId"
    let actionDescription ← j.optStrField "actionDescription"
    let blockingType ←
      match j.getField "blockingType" with
      | some (.str s) =>
        match BlockingType.ofStr s with
        | some b => Except.ok b
        | none => .error (fieldErr "blockingType")
      | _ => .error (fieldErr "blockingType")
    let actionParameters ←
      match j.getField "actionParameters" with
      | none => Except.ok none
      | some .null => Except.ok none
      | some (.arr xs) => do
        let ps ← ActionParameter.validateList xs
        Except.ok (some ps)
      | some _ => .error (fieldErr "actionParameters")
    return ⟨actionType, actionId, actionDescription, blockingType, actionParameters⟩
  | _ => .error notDictErr

/-- Serialization of an `Action`: enum fields to their string tag, absent
optionals to `null`. -/
def Action.model_dump_json (a : Action) : Json :=
  .obj [("actionType", .str a.actionType),
        ("actionId", .str a.actionId),
        ("actionDescription", Json.dumpOptStr a.actionDescription),
        ("blockingType", .str a.blockingType.toStr),
        ("actionParameters",
          match a.actionParameters with
          | none => .null
          | some ps => .arr (ps.map ActionParameter.model_dump_json))]

/-- Validation of a JSON array as `List[Action]`. -/
def Action.validateList : List Json → Except PyErr (List Action)
  | [] => .ok []
  | x :: xs => do
    let a ← Action.model_validate x
    let rest ← Action.validateList xs
    return a :: rest

/-- The literal upper bound of `NodePosition.theta` in common.py lines 97-98
(`ge=-3.14159265359, le=3.14159265359`). -/
def thetaBound : ℚ := 3.14159265359

/-- The literal upper bound of `NodePosition.allowedDeviationTheta` in
common.py line 109 (`le=3.141592654`). -/
def devThetaBound : ℚ := 3.141592654

/-- `NodePosition` (common.py lines 80-118). -/
structure NodePosition where
  x : ℚ
  y : ℚ
  theta : Option ℚ
  allowedDeviationXY : Option ℚ
  allowedDeviationTheta : Option ℚ
  mapId : String
  mapDescription : Option String

/-- Validation of a `NodePosition`: `theta ∈ [-3.14159265359, 3.14159265359]`,
`allowedDeviationXY ≥ 0`, `allowedDeviationTheta ∈ [0, 3.141592654]`, all three
optional; `x`, `y`, `mapId` required. -/
def NodePosition.model_validate (j : Json) : Except PyErr NodePosition :=
  match j with
  | .obj _ => do
    let x ← j.reqNumField "x"
    let y ← j.reqNumField "y"
    let theta ← j.optNumFieldRange "theta" (-thetaBound) thetaBound
    let allowedDeviationXY ← j.optNumFieldGe "allowedDeviationXY" 0
    let allowedDeviationTheta ← j.optNumFieldRange "allowedDeviationTheta" 0 devThetaBound
    let mapId ← j.reqStrField "mapId"
    let mapDescription ← j.optStrField "mapDescription"
    return ⟨x, y, theta, allowedDeviationXY, allowedDeviationTheta, mapId, mapDescription⟩
  | _ => .error notDictErr

/-- Serialization of a `NodePosition`. -/
def NodePosition.model_dump_json (np : NodePosition) : Json :=
  .obj [("x", .num np.x), ("y", .num np.y),
        ("theta", Json.dumpOptNum np.theta),
        ("allowedDeviationXY", Json.dumpOptNum np.allowedDeviationXY),
        ("allowedDeviationTheta", Json.dumpOptNum np.allowedDeviationTheta),
        ("mapId", .str np.mapId),
        ("mapDescription", Json.dumpOptStr np.mapDescription)]

/-- The field constraints a directly constructed `NodePosition` must satisfy to
pass pydantic validation. -/
def NodePosition.isValid (np : NodePosition) : Bool :=
  (match np.theta with
   | none => true
   | some q => decide (-thetaBound ≤ q ∧ q ≤ thetaBound)) &&
  (match np.allowedDeviationXY with
   | none => true
   | some q => decide (0 ≤ q)) &&
  (match np.allowedDeviationTheta with
   | none => true
   | some q => decide (0 ≤ q ∧ q ≤ devThetaBound))

/-- `ControlPoint` (common.py lines 121-138): `weight` is optional with bound
`ge=0.0` and default value `None` (the 1.0 default appears only in the field's
description text). -/
structure ControlPoint where
  x : ℚ
  y : ℚ
  weight : Option ℚ

/-- Validation of a `ControlPoint`: an absent `weight` stays absent (`None`);
no value is substituted for it. -/
def ControlPoint.model_validate (j : Json) : Except PyErr ControlPoint :=
  match j with
  | .obj _ => do
    let x ← j.reqNumField "x"
    let y ← j.reqNumField "y"
    let weight ← j.optNumFieldGe "weight" 0
    return ⟨x, y, weight⟩
  | _ => .error notDictErr

/-- Serialization of a `ControlPoint`. -/
def ControlPoint.model_dump_json (c : ControlPoint) : Json :=
  .obj [("x", .num c.x), ("y", .num c.y), ("weight", Json.dumpOptNum c.weight)]

/-- The field constraints a directly constructed `ControlPoint` must satisfy. -/
def ControlPoint.isValid (c : ControlPoint) : Bool :=
  match c.weight with
  | none => true
  | some q => decide (0 ≤ q)

/-- Validation of a JSON array as `List[ControlPoint]`. -/
def ControlPoint.validateList : List Json → Except PyErr (List ControlPoint)
  | [] => .ok []
  | x :: xs => do
    let c ← ControlPoint.model_validate x
    let rest ← ControlPoint.validateList xs
    return c :: rest

/-- Validation of a JSON array as `List[float]` (the knot vector). -/
def validateNumList : List Json → Except PyErr (List ℚ)
  | [] => .ok []
  | .num q :: xs => do
    let rest ← validateNumList xs
    return q :: rest
  | _ :: _ => .error (fieldErr "knotVector")

/-- `Trajectory` (common.py lines 141-160): `degree ≥ 1`, `knotVector` and
`controlPoints` plain lists; no relation between their lengths is declared. -/
structure Trajectory where
  degree : ℤ
  knotVector : List ℚ
  controlPoints : List ControlPoint

/-- Validation of a `Trajectory`: the only numeric constraint is `degree ≥ 1`;
the lists are validated element-wise, with no cross-field length check. -/
def Trajectory.model_validate (j : Json) : Except PyErr Trajectory :=
  match j with
  | .obj _ => do
    let degree ← j.reqIntFieldGe "degree" 1
    let knotVector ←
      match j.getField "knotVector" with
      | some (.arr xs) => validateNumList xs
      | _ => .error (fieldErr "knotVector")
    let controlPoints ←
      match j.getField "controlPoints" with
      | some (.arr xs) => ControlPoint.validateList xs
      | _ => .error (fieldErr "controlPoints")
    return ⟨degree, knotVector, controlPoints⟩
  | _ => .error notDictErr

/-- Serialization of a `Trajectory`. -/
def Trajectory.model_dump_json (t : Trajectory) : Json :=
  .obj [("degree", .num (t.degree : ℚ)),
        ("knotVector", .arr (t.knotVector.map Json.num)),
        ("controlPoints", .arr (t.controlPoints.map ControlPoint.model_dump_json))]

/-- The field constraints a directly constructed `Trajectory` must satisfy:
`degree ≥ 1` and each control point valid — nothing about list lengths. -/
def Trajectory.isValid (t : Trajectory) : Bool :=
  decide (1 ≤ t.degree) && t.controlPoints.all ControlPoint.isValid

/-- `CorridorRefPoint` (common.py lines 163-171): the closed enumeration
`KINEMATICCENTER | CONTOUR`. -/
inductive CorridorRefPoint where
  | KINEMATICCENTER : CorridorRefPoint
  | CONTOUR : CorridorRefPoint
deriving DecidableEq, Repr

/-- The string tag an enum member serializes to. -/
def CorridorRefPoint.toStr : CorridorRefPoint → String
  | .KINEMATICCENTER => "KINEMATICCENTER"
  | .CONTOUR => "CONTOUR"

/-- Enum membership check for a `CorridorRefPoint` field. -/
def CorridorRefPoint.ofStr (s : String) : Option CorridorRefPoint :=
  if s = "KINEMATICCENTER" then some .KINEMATICCENTER
  else if s = "CONTOUR" then some .CONTOUR
  else none

/-- `Corridor` (common.py lines 174-194). -/
structure Corridor where
  leftWidth : ℚ
  rightWidth : ℚ
  corridorRefPoint : Option CorridorRefPoint

/-- Validation of a `Corridor`: both widths required with `ge=0.0`, the
reference point an optional enum. -/
def Corridor.model_validate (j : Json) : Except PyErr Corridor :=
  match j with
  | .obj _ => do
    let leftWidth ← j.reqNumFieldGe "leftWidth" 0
    let rightWidth ← j.reqNumFieldGe "rightWidth" 0
    let corridorRefPoint ←
      match j.getField "corridorRefPoint" with
      | none => Except.ok none
      | some .null => Except.ok none
      | some (.str s) =>
        match CorridorRefPoint.ofStr s with
        | some c => Except.ok (some c)
        | none => .error (fieldErr "corridorRefPoint")
      | some _ => .error (fieldErr "corridorRefPoint")
    return ⟨leftWidth, rightWidth, corridorRefPoint⟩
  | _ => .error notDictErr

/-- Serialization of a `Corridor`. -/
def Corridor.model_dump_json (c : Corridor) : Json :=
  .obj [("leftWidth", .num c.leftWidth), ("rightWidth", .num c.rightWidth),
        ("corridorRefPoint",
          match c.corridorRefPoint with
          | none => .null
          | some r => .str r.toStr)]

/-- The field constraints a directly constructed `Corridor` must satisfy. -/
def Corridor.isValid (c : Corridor) : Bool :=
  decide (0 ≤ c.leftWidth) && decide (0 ≤ c.rightWidth)

/-! ## Message types whose defining modules are not in the visible source

The modules `pydantic_models/order.py`, `pydantic_models/state.py`,
`pydantic_models/instantActions.py` and `pydantic_models/connection.py` are
imported by `validate.py` but are generated code not present in the visible
source.  They are modelled from the spec below.
-/

/-- Test for the JSON `null` value. -/
def Json.isNull : Json → Bool
  | .null => true
  | _ => false

/-- Optional nested-model field: absent or `null` yields `None`, any other
value is validated by the nested model's validator. -/
def Json.optSubField (j : Json) (field : String)
    (sub : Json → Except PyErr α) : Except PyErr (Option α) :=
  match j.getField field with
  | none => .ok none
  | some v => if v.isNull then .ok none else (sub v).map some

/-- Modelled from the spec: `Node` of the absent `pydantic_models/order.py`.
The spec (section 3) names `Node` as a nested record of an order, composed from
the primitives above, with ordered `Node`/`Edge` sequences; its exact field
list is not given, so a representative identifier, sequence position, release
flag, optional position and action list are modelled. -/
structure Node where
  nodeId : String
  sequenceId : ℤ
  released : Bool
  nodePosition : Option NodePosition
  actions : List Action

/-- Modelled from the spec: validation of a `Node` following the same
discipline as the visible composites (section 3: nested records follow the same
validation discipline as `Action`/`NodePosition`). -/
def Node.model_validate (j : Json) : Except PyErr Node :=
  match j with
  | .obj _ => do
    let nodeId ← j.reqStrField "nodeId"
    let sequenceId ← j.reqIntField "sequenceId"
    let released ← j.reqBoolField "released"
    let nodePosition ← j.optSubField "nodePosition" NodePosition.model_validate
    let actions ←
      match j.getField "actions" with
      | some (.arr xs) => Action.validateList xs
      | _ => .error (fieldErr "actions")
    return ⟨nodeId, sequenceId, released, nodePosition, actions⟩
  | _ => .error notDictErr

/-- Modelled from the spec: serialization of a `Node`. -/
def Node.model_dump_json (n : Node) : Json :=
  .obj [("nodeId", .str n.nodeId),
        ("sequenceId", .num (n.sequenceId : ℚ)),
        ("released", .bool n.released),
        ("nodePosition",
          match n.nodePosition with
          | none => .null
          | some np => np.model_dump_json),
        ("actions", .arr (n.actions.map Action.model_dump_json))]

/-- Modelled from the spec: the constraints a directly constructed `Node` must
satisfy (its optional position must itself be valid). -/
def Node.isValid (n : Node) : Bool :=
  match n.nodePosition with
  | none => true
  | some np => np.isValid

/-- Validation of a JSON array as `List[Node]`. -/
def Node.validateList : List Json → Except PyErr (List Node)
  | [] => .ok []
  | x :: xs => do
    let n ← Node.model_validate x
    let rest ← Node.validateList xs
    return n :: rest

/-- Modelled from the spec: `Edge` of the absent `pydantic_models/order.py`,
composed from the primitives above (section 3); a representative identifier,
sequence position, release flag, endpoint node ids, action list, optional
trajectory and corridor are modelled. -/
structure Edge where
  edgeId : String
  sequenceId : ℤ
  released : Bool
  startNodeId : String
  endNodeId : String
  actions : List Action
  trajectory : Option Trajectory
  corridor : Option Corridor

/-- Modelled from the spec: validation of an `Edge`. -/
def Edge.model_validate (j : Json) : Except PyErr Edge :=
  match j with
  | .obj _ => do
    let edgeId ← j.reqStrField "edgeId"
    let sequenceId ← j.reqIntField "sequenceId"
    let released ← j.reqBoolField "released"
    let startNodeId ← j.reqStrField "startNodeId"
    let endNodeId ← j.reqStrField "endNodeId"
    let actions ←
      match j.getField "actions" with
      | some (.arr xs) => Action.validateList xs
      | _ => .error (fieldErr "actions")
    let trajectory ← j.optSubField "trajectory" Trajectory.model_validate
    let corridor ← j.optSubField "corridor" Corridor.model_validate
    return ⟨edgeId, sequenceId, released, startNodeId, endNodeId, actions,
            trajectory, corridor⟩
  | _ => .error notDictErr

/-- Modelled from the spec: serialization of an `Edge`. -/
def Edge.model_dump_json (e : Edge) : Json :=
  .obj [("edgeId", .str e.edgeId),
        ("sequenceId", .num (e.sequenceId : ℚ)),
        ("released", .bool e.released),
        ("startNodeId", .str e.startNodeId),
        ("endNodeId", .str e.endNodeId),
        ("actions", .arr (e.actions.map Action.model_dump_json)),
        ("trajectory",
          match e.trajectory with
          | none => .null
          | some t => t.model_dump_json),
        ("corridor",
          match e.corridor with
          | none => .null
          | some c => c.model_dump_json)]

/-- Modelled from the spec: the constraints a directly constructed `Edge` must
satisfy. -/
def Edge.isValid (e : Edge) : Bool :=
  (match e.trajectory with
   | none => true
   | some t => t.isValid) &&
  (match e.corridor with
   | none => true
   | some c => c.isValid)

/-- Validation of a JSON array as `List[Edge]`. -/
def Edge.validateList : List Json → Except PyErr (List Edge)
  | [] => .ok []
  | x :: xs => do
    let e ← Edge.model_validate x
    let rest ← Edge.validateList xs
    return e :: rest

/-- Modelled from the spec: `OrderMessage` of the absent
`pydantic_models/order.py`.  Section 3 gives every top-level message the five
envelope metadata fields `headerId`, `timestamp`, `version`, `manufacturer`,
`serialNumber`, and an order carries ordered `Node`/`Edge` sequences; the
`timestamp` is modelled as its serialized text form. -/
structure OrderMessage where
  headerId : ℤ
  timestamp : String
  version : String
  manufacturer : String
  serialNumber : String
  orderId : String
  orderUpdateId : ℤ
  nodes : List Node
  edges : List Edge

/-- Modelled from the spec: validation of an `OrderMessage`. -/
def OrderMessage.model_validate (j : Json) : Except PyErr OrderMessage :=
  match j with
  | .obj _ => do
    let headerId ← j.reqIntField "headerId"
    let timestamp ← j.reqStrField "timestamp"
    let version ← j.reqStrField "version"
    let manufacturer ← j.reqStrField "manufacturer"
    let serialNumber ← j.reqStrField "serialNumber"
    let orderId ← j.reqStrField "orderId"
    let orderUpdateId ← j.reqIntField "orderUpdateId"
    let nodes ←
      match j.getField "nodes" with
      | some (.arr xs) => Node.validateList xs
      | _ => .error (fieldErr "nodes")
    let edges ←
      match j.getField "edges" with
      | some (.arr xs) => Edge.validateList xs
      | _ => .error (fieldErr "edges")
    return ⟨headerId, timestamp, version, manufacturer, serialNumber, orderId,
            orderUpdateId, nodes, edges⟩
  | _ => .error notDictErr

/-- Modelled from the spec: serialization of an `OrderMessage`. -/
def OrderMessage.model_dump_json (m : OrderMessage) : Json :=
  .obj [("headerId", .num (m.headerId : ℚ)),
        ("timestamp", .str m.timestamp),
        ("version", .str m.version),
        ("manufacturer", .str m.manufacturer),
        ("serialNumber", .str m.serialNumber),
        ("orderId", .str m.orderId),
        ("orderUpdateId", .num (m.orderUpdateId : ℚ)),
        ("nodes", .arr (m.nodes.map Node.model_dump_json)),
        ("edges", .arr (m.edges.map Edge.model_dump_json))]

/-- Modelled from the spec: the constraints a directly constructed
`OrderMessage` must satisfy. -/
def OrderMessage.isValid (m : OrderMessage) : Bool :=
  m.nodes.all Node.isValid && m.edges.all Edge.isValid

/-- Modelled from the spec: `State` of the absent `pydantic_models/state.py`.
Section 3 pins down only the five envelope metadata fields shared by every
top-level message; the state report payload beyond these is not specified, so
only the metadata and the order reference are modelled. -/
structure State where
  headerId : ℤ
  timestamp : String
  version : String
  manufacturer : String
  serialNumber : String
  orderId : String

/-- Modelled from the spec: validation of a `State`. -/
def State.model_validate (j : Json) : Except PyErr State :=
  match j with
  | .obj _ => do
    let headerId ← j.reqIntField "headerId"
    let timestamp ← j.reqStrField "timestamp"
    let version ← j.reqStrField "version"
    let manufacturer ← j.reqStrField "manufacturer"
    let serialNumber ← j.reqStrField "serialNumber"
    let orderId ← j.reqStrField "orderId"
    return ⟨headerId, timestamp, version, manufacturer, serialNumber, orderId⟩
  | _ => .error notDictErr

/-- Modelled from the spec: serialization of a `State`. -/
def State.model_dump_json (s : State) : Json :=
  .obj [("headerId", .num (s.headerId : ℚ)),
        ("timestamp", .str s.timestamp),
        ("version", .str s.version),
        ("manufacturer", .str s.manufacturer),
        ("serialNumber", .str s.serialNumber),
        ("orderId", .str s.orderId)]

/-- Modelled from the spec: `InstantActions` of the absent
`pydantic_models/instantActions.py`: the five envelope metadata fields plus the
list of actions to execute (the shape the repository test constructs). -/
structure InstantActions where
  headerId : ℤ
  timestamp : String
  version : String
  manufacturer : String
  serialNumber : String
  actions : List Action

/-- Modelled from the spec: validation of an `InstantActions`. -/
def InstantActions.model_validate (j : Json) : Except PyErr InstantActions :=
  match j with
  | .obj _ => do
    let headerId ← j.reqIntField "headerId"
    let timestamp ← j.reqStrField "timestamp"
    let version ← j.reqStrField "version"
    let manufacturer ← j.reqStrField "manufacturer"
    let serialNumber ← j.reqStrField "serialNumber"
    let actions ←
      match j.getField "actions" with
      | some (.arr xs) => Action.validateList xs
      | _ => .error (fieldErr "actions")
    return ⟨headerId, timestamp, version, manufacturer, serialNumber, actions⟩
  | _ => .error notDictErr

/-- Modelled from the spec: serialization of an `InstantActions`. -/
def InstantActions.model_dump_json (ia : InstantActions) : Json :=
  .obj [("headerId", .num (ia.headerId : ℚ)),
        ("timestamp", .str ia.timestamp),
        ("version", .str ia.version),
        ("manufacturer", .str ia.manufacturer),
        ("serialNumber", .str ia.serialNumber),
        ("actions", .arr (ia.actions.map Action.model_dump_json))]

/-- Modelled from the spec: `Connection` of the absent
`pydantic_models/connection.py`: the five envelope metadata fields plus the
connection status, modelled as its serialized text form. -/
structure Connection where
  headerId : ℤ
  timestamp : String
  version : String
  manufacturer : String
  serialNumber : String
  connectionState : String

/-- Modelled from the spec: validation of a `Connection`. -/
def Connection.model_validate (j : Json) : Except PyErr Connection :=
  match j with
  | .obj _ => do
    let headerId ← j.reqIntField "headerId"
    let timestamp ← j.reqStrField "timestamp"
    let version ← j.reqStrField "version"
    let manufacturer ← j.reqStrField "manufacturer"
    let serialNumber ← j.reqStrField "serialNumber"
    let connectionState ← j.reqStrField "connectionState"
    return ⟨headerId, timestamp, version, manufacturer, serialNumber, connectionState⟩
  | _ => .error notDictErr

/-- Modelled from the spec: serialization of a `Connection`. -/
def Connection.model_dump_json (c : Connection) : Json :=
  .obj [("headerId", .num (c.headerId : ℚ)),
        ("timestamp", .str c.timestamp),
        ("version", .str c.version),
        ("manufacturer", .str c.manufacturer),
        ("serialNumber", .str c.serialNumber),
        ("connectionState", .str c.connectionState)]

/-! ## The registry and envelope transcoder of `pydantic_models/validate.py` -/

/-- The classes registered in `MODEL_TYPE_MAP` (validate.py lines 27-42): one
constructor per registered class, record classes and the two enum classes
alike. -/
inductive ModelClass where
  | Action : ModelClass
  | ActionParameter : ModelClass
  | BlockingType : ModelClass
  | ControlPoint : ModelClass
  | Corridor : ModelClass
  | CorridorRefPoint : ModelClass
  | NodePosition : ModelClass
  | Trajectory : ModelClass
  | OrderMessage : ModelClass
  | Node : ModelClass
  | Edge : ModelClass
  | State : ModelClass
  | InstantActions : ModelClass
  | Connection : ModelClass
deriving DecidableEq, Repr

/-- `MODEL_TYPE_MAP` (validate.py lines 27-42): the name-to-class table, in
source order.  It contains exactly these fourteen entries; in particular the
`factsheet` and `visualization` modules are not imported by validate.py and no
name of theirs is registered. -/
def MODEL_TYPE_MAP : List (String × ModelClass) :=
  [("Action", .Action),
   ("ActionParameter", .ActionParameter),
   ("BlockingType", .BlockingType),
   ("ControlPoint", .ControlPoint),
   ("Corridor", .Corridor),
   ("CorridorRefPoint", .CorridorRefPoint),
   ("NodePosition", .NodePosition),
   ("Trajectory", .Trajectory),
   ("OrderMessage", .OrderMessage),
   ("Node", .Node),
   ("Edge", .Edge),
   ("State", .State),
   ("InstantActions", .InstantActions),
   ("Connection", .Connection)]

/-- `get_model_class` (validate.py lines 139-149): `MODEL_TYPE_MAP.get(...)`,
returning `None` — not raising — for an unregistered name. -/
def get_model_class (message_type : String) : Option ModelClass :=
  MODEL_TYPE_MAP.lookup message_type

/-- A typed entity: an instance of one of the registered pydantic model
classes (the enum classes have no instances constructible through the
transcoder, so they do not appear here). -/
inductive Entity where
  | action (a : Action) : Entity
  | actionParameter (p : ActionParameter) : Entity
  | controlPoint (c : ControlPoint) : Entity
  | corridor (c : Corridor) : Entity
  | nodePosition (np : NodePosition) : Entity
  | trajectory (t : Trajectory) : Entity
  | orderMessage (m : OrderMessage) : Entity
  | node (n : Node) : Entity
  | edge (e : Edge) : Entity
  | state (s : State) : Entity
  | instantActions (ia : InstantActions) : Entity
  | connection (c : Connection) : Entity

/-- `model.__class__.__name__`: the Python class name of an entity, which is
also its canonical registry name. -/
def Entity.className : Entity → String
  | .action _ => "Action"
  | .actionParameter _ => "ActionParameter"
  | .controlPoint _ => "ControlPoint"
  | .corridor _ => "Corridor"
  | .nodePosition _ => "NodePosition"
  | .trajectory _ => "Trajectory"
  | .orderMessage _ => "OrderMessage"
  | .node _ => "Node"
  | .edge _ => "Edge"
  | .state _ => "State"
  | .instantActions _ => "InstantActions"
  | .connection _ => "Connection"

/-- `model.model_dump_json()` at the value level: dispatch to each class's
serializer. -/
def Entity.dump : Entity → Json
  | .action a => a.model_dump_json
  | .actionParameter p => p.model_dump_json
  | .controlPoint c => c.model_dump_json
  | .corridor c => c.model_dump_json
  | .nodePosition np => np.model_dump_json
  | .trajectory t => t.model_dump_json
  | .orderMessage m => m.model_dump_json
  | .node n => n.model_dump_json
  | .edge e => e.model_dump_json
  | .state s => s.model_dump_json
  | .instantActions ia => ia.model_dump_json
  | .connection c => c.model_dump_json

/-- An entity passes validation: every field constraint of its class holds
(classes without numeric or enum constraints are always valid). -/
def Entity.isValid : Entity → Bool
  | .action _ => true
  | .actionParameter _ => true
  | .controlPoint c => c.isValid
  | .corridor c => c.isValid
  | .nodePosition np => np.isValid
  | .trajectory t => t.isValid
  | .orderMessage m => m.isValid
  | .node n => n.isValid
  | .edge e => e.isValid
  | .state _ => true
  | .instantActions _ => true
  | .connection _ => true

/-- `model_class.model_validate(data)`: dispatch to the resolved class's
validator.  The two enum classes are plain `Enum`s, not pydantic models: they
have no `model_validate` attribute, so resolving them raises
`AttributeError`. -/
def ModelClass.model_validate : ModelClass → Json → Except PyErr Entity
  | .Action, d => (Action.model_validate d).map Entity.action
  | .ActionParameter, d => (ActionParameter.model_validate d).map Entity.actionParameter
  | .BlockingType, _ => .error (attrErr "BlockingType" "model_validate")
  | .ControlPoint, d => (ControlPoint.model_validate d).map Entity.controlPoint
  | .Corridor, d => (Corridor.model_validate d).map Entity.corridor
  | .CorridorRefPoint, _ => .error (attrErr "CorridorRefPoint" "model_validate")
  | .NodePosition, d => (NodePosition.model_validate d).map Entity.nodePosition
  | .Trajectory, d => (Trajectory.model_validate d).map Entity.trajectory
  | .OrderMessage, d => (OrderMessage.model_validate d).map Entity.orderMessage
  | .Node, d => (Node.model_validate d).map Entity.node
  | .Edge, d => (Edge.model_validate d).map Entity.edge
  | .State, d => (State.model_validate d).map Entity.state
  | .InstantActions, d => (InstantActions.model_validate d).map Entity.instantActions
  | .Connection, d => (Connection.model_validate d).map Entity.connection

/-- The argument `from_model` receives: annotated `BaseModel`, but Python does
not enforce the annotation, so a caller can also pass a member of one of the
registered enum classes. -/
inductive PyModel where
  | model (e : Entity) : PyModel
  | enumBlockingType (b : BlockingType) : PyModel
  | enumCorridorRefPoint (c : CorridorRefPoint) : PyModel

/-- `model.__class__.__name__` of a `from_model` argument. -/
def PyModel.className : PyModel → String
  | .model e => e.className
  | .enumBlockingType _ => "BlockingType"
  | .enumCorridorRefPoint _ => "CorridorRefPoint"

/-- `model.model_dump_json()` on a `from_model` argument: enum members are not
pydantic models and have no such attribute, so the call raises
`AttributeError`. -/
def PyModel.model_dump_json : PyModel → Except PyErr Json
  | .model e => .ok e.dump
  | .enumBlockingType _ => .error (attrErr "BlockingType" "model_dump_json")
  | .enumCorridorRefPoint _ => .error (attrErr "CorridorRefPoint" "model_dump_json")

/-- The `json.loads` failure on malformed input text (`json.JSONDecodeError`,
message abstracted). -/
def jsonDecodeErr : PyErr := ⟨"JSONDecodeError", "Expecting value"⟩

/-- The error raised by to_model when `message_type` or `data` is absent — or
present but falsy (validate.py line 66). -/
def missingFieldErr : PyErr :=
  ⟨"ValueError", "JSONにmessage_typeまたはdataフィールドがありません"⟩

/-- The error raised on an unregistered `message_type` (validate.py lines 71
and 130). -/
def unsupportedMsgErr (t : String) : PyErr :=
  ⟨"ValueError", "サポートされていないメッセージタイプです: " ++ t⟩

/-- The error raised by from_model on an unregistered model class (validate.py
line 98). -/
def unsupportedModelErr (t : String) : PyErr :=
  ⟨"ValueError", "サポートされていないモデルタイプです: " ++ t⟩

/-- The wrapper applied by to_model's `except` clause (validate.py line 77):
every failure inside the `try` is re-raised as a `ValueError` whose message
embeds the inner message. -/
def toModelWrap (e : PyErr) : PyErr :=
  ⟨"ValueError", "JSONからモデルへの変換に失敗しました: " ++ e.msg⟩

/-- The wrapper applied by from_model's `except` clause (validate.py line 113). -/
def fromModelWrap (e : PyErr) : PyErr :=
  ⟨"ValueError", "モデルからJSONへの変換に失敗しました: " ++ e.msg⟩

/-- Rendering of a non-string `message_type` into the unsupported-type message
(the f-string at validate.py line 71); no claim depends on its exact form. -/
def Json.pyStr : Json → String
  | .str s => s
  | .bool true => "True"
  | .bool false => "False"
  | .num q => toString q
  | _ => "<value>"

/-- The body of to_model's `try` block (validate.py lines 57-74), acting on the
result of `json.loads` (`none` = the parse itself raised): read
`message_type` and `data` with `dict.get`, reject if either is falsy, resolve
the class in `MODEL_TYPE_MAP`, and validate `data` against it. -/
def toModelInner : Option Json → Except PyErr Entity
  | none => .error jsonDecodeErr
  | some message =>
    match message with
    | .obj _ =>
      let mt := message.getField "message_type"
      let data := message.getField "data"
      if !(truthyOpt mt) || !(truthyOpt data) then
        .error missingFieldErr
      else
        match mt, data with
        | some mtv, some d =>
          (match mtv with
           | .str s =>
             match MODEL_TYPE_MAP.lookup s with
             | some c => c.model_validate d
             | none => .error (unsupportedMsgErr s)
           | _ => .error (unsupportedMsgErr mtv.pyStr))
        | _, _ => .error missingFieldErr
    | _ => .error (attrErr "message" "get")

/-- `to_model` (validate.py lines 44-77) at the parsed-value level: the `try`
body with every failure wrapped into the single `ValueError` of the `except`
clause. -/
def to_model (parsed : Option Json) : Except PyErr Entity :=
  match toModelInner parsed with
  | .ok e => .ok e
  | .error e => .error (toModelWrap e)

/-- The body of from_model's `try` block (validate.py lines 92-110): check the
class name is registered, serialize, and wrap in the envelope. -/
def fromModelInner (m : PyModel) : Except PyErr Json :=
  if (MODEL_TYPE_MAP.lookup m.className).isSome then
    match m.model_dump_json with
    | .ok d => .ok (.obj [("message_type", .str m.className), ("data", d)])
    | .error e => .error e
  else
    .error (unsupportedModelErr m.className)

/-- `from_model` (validate.py lines 79-113) at the parsed-value level: returns
the envelope `{message_type, data}` as a value; every failure is wrapped into
the single `ValueError` of the `except` clause. -/
def from_model (m : PyModel) : Except PyErr Json :=
  match fromModelInner m with
  | .ok j => .ok j
  | .error e => .error (fromModelWrap e)

/-- `create_message` (validate.py lines 115-137): check the name is registered
and wrap `data` unvalidated; the raise here is not inside a `try`, so it
surfaces unwrapped. -/
def create_message (message_type : String) (data : Json) : Except PyErr Json :=
  if (MODEL_TYPE_MAP.lookup message_type).isSome then
    .ok (.obj [("message_type", .str message_type), ("data", data)])
  else
    .error (unsupportedMsgErr message_type)

/-! ## Round-trip lemmas: validating a serialized entity recovers it -/

/-- Each union variant of a parameter value decodes back from its own
serialization. -/
theorem ParamValue.ofJson_dump (v : ParamValue) : ParamValue.ofJson v.dump = .ok v := by
  cases v <;> rfl

/-- An `ActionParameter` survives serialize-then-validate unchanged. -/
theorem ActionParameter.validate_dump_param (p : ActionParameter) :
    ActionParameter.model_validate p.model_dump_json = .ok p := by
  cases p with
  | mk key value =>
    simp [ActionParameter.model_validate, ActionParameter.model_dump_json,
      Json.reqStrField, Json.getField, List.lookup, ParamValue.ofJson_dump,
      Bind.bind, Except.bind, Pure.pure, Except.pure]

/-- A list of `ActionParameter`s survives serialize-then-validate unchanged. -/
theorem ActionParameter.validateList_dump_param (l : List ActionParameter) :
    ActionParameter.validateList (l.map ActionParameter.model_dump_json) = .ok l := by
  induction l with
  | nil => rfl
  | cons p ps ih =>
    simp [ActionParameter.validateList, ActionParameter.validate_dump_param, ih,
      Bind.bind, Except.bind, Pure.pure, Except.pure]

/-- A `BlockingType` tag decodes back to the member it came from. -/
theorem BlockingType.ofStr_toStr_blocking (b : BlockingType) : BlockingType.ofStr b.toStr = some b := by
  cases b <;> rfl

/-- An `Action` survives serialize-then-validate unchanged. -/
theorem Action.validate_dump_action (a : Action) :
    Action.model_validate a.model_dump_json = .ok a := by
  cases a with
  | mk t i d b ps =>
    cases ps <;> cases d <;>
    simp [Action.model_validate, Action.model_dump_json,
      Json.reqStrField, Json.optStrField, Json.getField, List.lookup,
      BlockingType.ofStr_toStr_blocking, ActionParameter.validateList_dump_param,
      Bind.bind, Except.bind, Pure.pure, Except.pure, Json.dumpOptStr]

/-- A list of `Action`s survives serialize-then-validate unchanged. -/
theorem Action.validateList_dump_action (l : List Action) :
    Action.validateList (l.map Action.model_dump_json) = .ok l := by
  induction l with
  | nil => rfl
  | cons a rest ih =>
    simp [Action.validateList, Action.validate_dump_action, ih,
      Bind.bind, Except.bind, Pure.pure, Except.pure]

/-- A valid `NodePosition` survives serialize-then-validate unchanged. -/
theorem NodePosition.validate_dump_nodePosition (np : NodePosition) (h : np.isValid = true) :
    NodePosition.model_validate np.model_dump_json = .ok np := by
  cases np with
  | mk x y th dxy dth mid mdesc =>
    simp only [NodePosition.isValid, Bool.and_eq_true] at h
    obtain ⟨⟨hth, hdxy⟩, hdth⟩ := h
    cases th <;> cases dxy <;> cases dth <;> cases mdesc <;>
    simp_all [NodePosition.model_validate, NodePosition.model_dump_json,
      Json.reqNumField, Json.optNumFieldRange, Json.optNumFieldGe,
      Json.reqStrField, Json.optStrField, Json.getField, List.lookup,
      Json.dumpOptNum, Json.dumpOptStr,
      Bind.bind, Except.bind, Pure.pure, Except.pure]

/-- A valid `ControlPoint` survives serialize-then-validate unchanged. -/
theorem ControlPoint.validate_dump_controlPoint (c : ControlPoint) (h : c.isValid = true) :
    ControlPoint.model_validate c.model_dump_json = .ok c := by
  cases c with
  | mk x y w =>
    simp only [ControlPoint.isValid] at h
    cases w <;>
    simp_all [ControlPoint.model_validate, ControlPoint.model_dump_json,
      Json.reqNumField, Json.optNumFieldGe, Json.getField, List.lookup,
      Json.dumpOptNum, Bind.bind, Except.bind, Pure.pure, Except.pure]

/-- A list of valid `ControlPoint`s survives serialize-then-validate. -/
theorem ControlPoint.validateList_dump_controlPoint (l : List ControlPoint)
    (h : l.all ControlPoint.isValid = true) :
    ControlPoint.validateList (l.map ControlPoint.model_dump_json) = .ok l := by
  induction l with
  | nil => rfl
  | cons c rest ih =>
    simp only [List.all_cons, Bool.and_eq_true] at h
    simp [ControlPoint.validateList, ControlPoint.validate_dump_controlPoint c h.1, ih h.2,
      Bind.bind, Except.bind, Pure.pure, Except.pure]

/-- A knot vector survives serialize-then-validate unchanged. -/
theorem validateNumList_dump (l : List ℚ) :
    validateNumList (l.map Json.num) = .ok l := by
  induction l with
  | nil => rfl
  | cons q rest ih =>
    simp [validateNumList, ih, Bind.bind, Except.bind, Pure.pure, Except.pure]

/-- A valid `Trajectory` survives serialize-then-validate unchanged. -/
theorem Trajectory.validate_dump_trajectory (t : Trajectory) (h : t.isValid = true) :
    Trajectory.model_validate t.model_dump_json = .ok t := by
  cases t with
  | mk deg kv cps =>
    simp only [Trajectory.isValid, Bool.and_eq_true, decide_eq_true_eq] at h
    simp [Trajectory.model_validate, Trajectory.model_dump_json,
      Json.reqIntFieldGe, Json.getField, List.lookup,
      validateNumList_dump, ControlPoint.validateList_dump_controlPoint _ h.2,
      Bind.bind, Except.bind, Pure.pure, Except.pure, h.1]

/-- A `CorridorRefPoint` tag decodes back to the member it came from. -/
theorem CorridorRefPoint.ofStr_toStr_corridorRef (c : CorridorRefPoint) :
    CorridorRefPoint.ofStr c.toStr = some c := by
  cases c <;> rfl

/-- A valid `Corridor` survives serialize-then-validate unchanged. -/
theorem Corridor.validate_dump_corridor (c : Corridor) (h : c.isValid = true) :
    Corridor.model_validate c.model_dump_json = .ok c := by
  cases c with
  | mk lw rw rp =>
    simp only [Corridor.isValid, Bool.and_eq_true, decide_eq_true_eq] at h
    cases rp <;>
    simp_all [Corridor.model_validate, Corridor.model_dump_json,
      Json.reqNumFieldGe, Json.getField, List.lookup,
      CorridorRefPoint.ofStr_toStr_corridorRef,
      Bind.bind, Except.bind, Pure.pure, Except.pure]

/-- An integer field's serialization is recognized as integral and recovered. -/
theorem reqIntField_num (n : ℤ) (rest : List (String × Json)) (k : String) :
    Json.reqIntField (Json.obj ((k, Json.num (n : ℚ)) :: rest)) k = .ok n := by
  simp [Json.reqIntField, Json.getField, List.lookup, Rat.den_intCast, Rat.num_intCast]

/-- The `null` value is recognized as such. -/
theorem Json.isNull_null : Json.null.isNull = true := rfl

/-- A serialized sub-model is never the JSON `null` value. -/
theorem NodePosition.dump_not_null_nodePosition (np : NodePosition) :
    np.model_dump_json.isNull = false := rfl

/-- A serialized trajectory is never the JSON `null` value. -/
theorem Trajectory.dump_not_null_trajectory (t : Trajectory) :
    t.model_dump_json.isNull = false := rfl

/-- A serialized corridor is never the JSON `null` value. -/
theorem Corridor.dump_not_null_corridor (c : Corridor) :
    c.model_dump_json.isNull = false := rfl

/-- A valid `Node` survives serialize-then-validate unchanged. -/
theorem Node.validate_dump_node (n : Node) (h : n.isValid = true) :
    Node.model_validate n.model_dump_json = .ok n := by
  cases n with
  | mk nid seq rel np acts =>
    simp only [Node.isValid] at h
    cases np <;>
    simp_all [Node.model_validate, Node.model_dump_json,
      Json.reqStrField, Json.reqIntField, Json.reqBoolField, Json.getField,
      Json.optSubField, Json.isNull_null, NodePosition.dump_not_null_nodePosition, Except.map,
      List.lookup, Rat.den_intCast, Rat.num_intCast,
      NodePosition.validate_dump_nodePosition, Action.validateList_dump_action,
      Bind.bind, Except.bind, Pure.pure, Except.pure]

/-- A list of valid `Node`s survives serialize-then-validate. -/
theorem Node.validateList_dump_node (l : List Node) (h : l.all Node.isValid = true) :
    Node.validateList (l.map Node.model_dump_json) = .ok l := by
  induction l with
  | nil => rfl
  | cons n rest ih =>
    simp only [List.all_cons, Bool.and_eq_true] at h
    simp [Node.validateList, Node.validate_dump_node n h.1, ih h.2,
      Bind.bind, Except.bind, Pure.pure, Except.pure]

/-- A valid `Edge` survives serialize-then-validate unchanged. -/
theorem Edge.validate_dump_edge (e : Edge) (h : e.isValid = true) :
    Edge.model_validate e.model_dump_json = .ok e := by
  cases e with
  | mk eid seq rel sni eni acts tr co =>
    simp only [Edge.isValid, Bool.and_eq_true] at h
    cases tr <;> cases co <;>
    simp_all [Edge.model_validate, Edge.model_dump_json,
      Json.reqStrField, Json.reqIntField, Json.reqBoolField, Json.getField,
      Json.optSubField, Json.isNull_null, Trajectory.dump_not_null_trajectory, Corridor.dump_not_null_corridor,
      Except.map, List.lookup, Rat.den_intCast, Rat.num_intCast,
      Trajectory.validate_dump_trajectory, Corridor.validate_dump_corridor, Action.validateList_dump_action,
      Bind.bind, Except.bind, Pure.pure, Except.pure]

/-- A list of valid `Edge`s survives serialize-then-validate. -/
theorem Edge.validateList_dump_edge (l : List Edge) (h : l.all Edge.isValid = true) :
    Edge.validateList (l.map Edge.model_dump_json) = .ok l := by
  induction l with
  | nil => rfl
  | cons e rest ih =>
    simp only [List.all_cons, Bool.and_eq_true] at h
    simp [Edge.validateList, Edge.validate_dump_edge e h.1, ih h.2,
      Bind.bind, Except.bind, Pure.pure, Except.pure]

/-- A valid `OrderMessage` survives serialize-then-validate unchanged. -/
theorem OrderMessage.validate_dump_order (m : OrderMessage) (h : m.isValid = true) :
    OrderMessage.model_validate m.model_dump_json = .ok m := by
  cases m with
  | mk hid ts ver man ser oid oupd nodes edges =>
    simp only [OrderMessage.isValid, Bool.and_eq_true] at h
    simp [OrderMessage.model_validate, OrderMessage.model_dump_json,
      Json.reqStrField, Json.reqIntField, Json.getField, List.lookup,
      Rat.den_intCast, Rat.num_intCast,
      Node.validateList_dump_node _ h.1, Edge.validateList_dump_edge _ h.2,
      Bind.bind, Except.bind, Pure.pure, Except.pure]

/-- A `State` survives serialize-then-validate unchanged. -/
theorem State.validate_dump_state (s : State) :
    State.model_validate s.model_dump_json = .ok s := by
  cases s with
  | mk hid ts ver man ser oid =>
    simp [State.model_validate, State.model_dump_json,
      Json.reqStrField, Json.reqIntField, Json.getField, List.lookup,
      Rat.den_intCast, Rat.num_intCast,
      Bind.bind, Except.bind, Pure.pure, Except.pure]

/-- An `InstantActions` survives serialize-then-validate unchanged. -/
theorem InstantActions.validate_dump_instant (ia : InstantActions) :
    InstantActions.model_validate ia.model_dump_json = .ok ia := by
  cases ia with
  | mk hid ts ver man ser acts =>
    simp [InstantActions.model_validate, InstantActions.model_dump_json,
      Json.reqStrField, Json.reqIntField, Json.getField, List.lookup,
      Rat.den_intCast, Rat.num_intCast, Action.validateList_dump_action,
      Bind.bind, Except.bind, Pure.pure, Except.pure]

/-- A `Connection` survives serialize-then-validate unchanged. -/
theorem Connection.validate_dump_connection (c : Connection) :
    Connection.model_validate c.model_dump_json = .ok c := by
  cases c with
  | mk hid ts ver man ser cs =>
    simp [Connection.model_validate, Connection.model_dump_json,
      Json.reqStrField, Json.reqIntField, Json.getField, List.lookup,
      Rat.den_intCast, Rat.num_intCast,
      Bind.bind, Except.bind, Pure.pure, Except.pure]

/-- A valid entity of any registered record class survives
serialize-then-validate through its own class. -/
theorem Entity.validate_dump_entity (e : Entity) (h : e.isValid = true) :
    ∃ c, MODEL_TYPE_MAP.lookup e.className = some c ∧
      c.model_validate e.dump = .ok e := by
  cases e <;>
  simp_all [Entity.isValid, Entity.className, Entity.dump, MODEL_TYPE_MAP,
    List.lookup, ModelClass.model_validate,
    ActionParameter.validate_dump_param, Action.validate_dump_action,
    ControlPoint.validate_dump_controlPoint, Corridor.validate_dump_corridor,
    NodePosition.validate_dump_nodePosition, Trajectory.validate_dump_trajectory,
    OrderMessage.validate_dump_order, Node.validate_dump_node, Edge.validate_dump_edge,
    State.validate_dump_state, InstantActions.validate_dump_instant, Connection.validate_dump_connection,
    Except.map]

/-! ## Generic registry lemmas -/

/-- The canonical registry names, exactly as registered: the closed set of
section 3 of the spec minus `AgvFactsheet` and `Visualization`, whose modules
validate.py never imports. -/
def registeredNames : List String :=
  ["Action", "ActionParameter", "BlockingType", "ControlPoint", "Corridor",
   "CorridorRefPoint", "NodePosition", "Trajectory", "OrderMessage", "Node",
   "Edge", "State", "InstantActions", "Connection"]

/-- Association-list lookup succeeds exactly on the keys. -/
theorem lookup_isSome_iff_mem_keys {β : Type} (l : List (String × β)) (a : String) :
    (l.lookup a).isSome = true ↔ a ∈ l.map Prod.fst := by
  induction l with
  | nil => simp [List.lookup]
  | cons p rest ih =>
    obtain ⟨k, v⟩ := p
    cases h : a == k with
    | true =>
      have hk : a = k := by simpa using h
      simp [List.lookup, h, hk]
    | false =>
      have hk : ¬a = k := by simpa using h
      simp [List.lookup, h, ih, hk]

/-- Registry lookup succeeds exactly on the fourteen registered names. -/
theorem mem_registry_iff (a : String) :
    (MODEL_TYPE_MAP.lookup a).isSome = true ↔ a ∈ registeredNames :=
  lookup_isSome_iff_mem_keys MODEL_TYPE_MAP a

/-! ## The envelope round trip -/

/-- Encoding any record entity succeeds and produces the envelope carrying its
class name and its serialized fields. -/
theorem from_model_ok (e : Entity) :
    from_model (.model e) =
      .ok (Json.obj [("message_type", Json.str e.className), ("data", e.dump)]) := by
  cases e <;>
  simp [from_model, fromModelInner, PyModel.className, Entity.className,
    PyModel.model_dump_json, MODEL_TYPE_MAP, List.lookup]

/-- A non-empty serialized entity is truthy. -/
theorem Entity.dump_truthy (e : Entity) : e.dump.truthy = true := by
  cases e <;> rfl

/-- No registered class name is the empty string, so the envelope's
`message_type` is truthy. -/
theorem Entity.className_truthy (e : Entity) : (Json.str e.className).truthy = true := by
  cases e <;> rfl

/-- Decoding the envelope of a valid entity recovers the entity. -/
theorem to_model_dump (e : Entity) (h : e.isValid = true) :
    to_model (some (Json.obj [("message_type", Json.str e.className), ("data", e.dump)]))
      = .ok e := by
  obtain ⟨c, hc, hcv⟩ := Entity.validate_dump_entity e h
  have h1 : List.lookup "message_type"
      [("message_type", Json.str e.className), ("data", e.dump)]
      = some (Json.str e.className) := by simp [List.lookup]
  have h2 : List.lookup "data"
      [("message_type", Json.str e.className), ("data", e.dump)]
      = some e.dump := by simp [List.lookup]
  have hinner : toModelInner
      (some (Json.obj [("message_type", Json.str e.className), ("data", e.dump)]))
      = .ok e := by
    unfold toModelInner
    simp [Json.getField, h1, h2, truthyOpt, Entity.className_truthy,
      Entity.dump_truthy, hc, hcv]
  simp [to_model, hinner]

/-! ## Claim theorems -/

/-- A sample valid entity: the `Action` constructed by the repository's own
test (`validate_test.py`). -/
def sampleAction : Action :=
  ⟨"startCharging", "action_001", none, .HARD,
   some [⟨"duration", .num 300⟩, ⟨"connector", .strv "type2"⟩]⟩

/-- C1, counterexample: `BlockingType` is a registered message type and
`BlockingType.NONE` is a valid member of it, yet `from_model` fails on it
(an `Enum` member has no `model_dump_json`), so `decode(encode(e))` cannot
return it — the round trip does not hold for every registered type. -/
theorem C1_enum_encode_fails :
    MODEL_TYPE_MAP.lookup "BlockingType" = some ModelClass.BlockingType ∧
    from_model (.enumBlockingType BlockingType.NONE) =
      .error (fromModelWrap (attrErr "BlockingType" "model_dump_json")) :=
  ⟨rfl, rfl⟩

/-- C1, amended: for every registered record (pydantic model) type and every
entity of it that passes validation, `from_model` produces the envelope whose
`message_type` is the entity's canonical registry name, and `to_model` on that
envelope returns the entity unchanged, field for field; the two registered
enum classes are excluded because encoding them fails. -/
theorem C1_record_roundtrip (e : Entity) (h : e.isValid = true) :
    from_model (.model e) =
      .ok (Json.obj [("message_type", Json.str e.className), ("data", e.dump)]) ∧
    to_model (some (Json.obj [("message_type", Json.str e.className),
        ("data", e.dump)])) = .ok e :=
  ⟨from_model_ok e, to_model_dump e h⟩

/-- C1, witness: the round trip at the test suite's concrete `Action`. -/
theorem C1_record_roundtrip_witness :
    (Entity.action sampleAction).isValid = true ∧
    (from_model (.model (Entity.action sampleAction)) =
      .ok (Json.obj [("message_type", Json.str (Entity.action sampleAction).className),
            ("data", (Entity.action sampleAction).dump)]) ∧
     to_model (some (Json.obj [("message_type", Json.str (Entity.action sampleAction).className),
            ("data", (Entity.action sampleAction).dump)]))
       = .ok (Entity.action sampleAction)) :=
  ⟨rfl, C1_record_roundtrip (Entity.action sampleAction) rfl⟩

/-- C2, counterexample: the canonical names `AgvFactsheet` and `Visualization`
of the spec's closed set are not in the registry — lookup yields `None` for
them. -/
theorem C2_missing_names :
    get_model_class "AgvFactsheet" = none ∧ get_model_class "Visualization" = none :=
  ⟨rfl, rfl⟩

/-- C2, amended: the registry maps exactly the fourteen registered names
(`AgvFactsheet` and `Visualization` are not among them) to a class, and
`create_message` fails with the unsupported-message-type error exactly when
the queried name is not one of these; `get_model_class` itself returns `None`
rather than raising. -/
theorem C2_registry_amended (name : String) :
    ((get_model_class name).isSome = true ↔ name ∈ registeredNames) ∧
    ∀ d : Json,
      (create_message name d = .error (unsupportedMsgErr name) ↔ name ∉ registeredNames) := by
  refine ⟨mem_registry_iff name, fun d => ?_⟩
  by_cases hm : name ∈ registeredNames
  · have hs : (MODEL_TYPE_MAP.lookup name).isSome = true := (mem_registry_iff name).mpr hm
    simp [create_message, hs, hm]
  · have hs : (MODEL_TYPE_MAP.lookup name).isSome = false := by
      cases hfoo : (MODEL_TYPE_MAP.lookup name).isSome with
      | false => rfl
      | true => exact absurd ((mem_registry_iff name).mp hfoo) hm
    simp [create_message, hs, hm]

/-- The exact envelope of the spec's unknown-type property:
`message_type` is `NotAType` and `data` is the empty object. -/
def envC3 : Json :=
  Json.obj [("message_type", Json.str "NotAType"), ("data", Json.obj [])]

/-- C3, counterexample: decoding that exact envelope fails with the
missing-envelope-field error, not the unsupported-message-type error: the
empty `data` object is falsy, so the emptiness check fires before the registry
lookup is reached. -/
theorem C3_empty_data_counterexample :
    to_model (some envC3) = .error (toModelWrap missingFieldErr) ∧
    toModelWrap missingFieldErr ≠ toModelWrap (unsupportedMsgErr "NotAType") := by
  refine ⟨rfl, ?_⟩
  decide

/-- C3, amended: decoding the exact envelope with empty `data` fails with the
missing-envelope-field error (empty `data` is falsy); with any non-empty
payload under the same unregistered name, decoding fails with the
unsupported-message-type error. -/
theorem C3_amended :
    to_model (some envC3) = .error (toModelWrap missingFieldErr) ∧
    to_model (some (Json.obj [("message_type", Json.str "NotAType"),
        ("data", Json.obj [("a", Json.num 1)])]))
      = .error (toModelWrap (unsupportedMsgErr "NotAType")) :=
  ⟨rfl, rfl⟩

/-- Modelled from the spec: decoding of `ActionParameter.value` "attempts
structural match against each alternative shape (array, boolean, number,
string, object) in that fixed priority order, accepting the first successful
match" — stated as first-match over the matcher list, for comparison with the
source's union decoder. -/
def paramValueSpecMatch (j : Json) : Except PyErr ParamValue :=
  match [ParamValue.matchArr, ParamValue.matchBool, ParamValue.matchNum,
         ParamValue.matchStr, ParamValue.matchObj].findSome? (fun m => m j) with
  | some v => .ok v
  | none => .error (fieldErr "value")

/-- C4: the union decoder equals the spec's first-match-in-priority-order
decoder on every input, and each of the five example values — `true`, `3.14`,
`"left"`, `["a","b"]`, `{"k":1}` — is accepted under key `"x"`, stored under
the matching variant, and serialized back to its original shape unchanged. -/
theorem C4_union_match :
    (∀ j : Json, ParamValue.ofJson j = paramValueSpecMatch j) ∧
    (ActionParameter.model_validate
        (Json.obj [("key", Json.str "x"), ("value", Json.bool true)])
        = .ok ⟨"x", .boolean true⟩ ∧
      (ActionParameter.mk "x" (.boolean true)).model_dump_json
        = Json.obj [("key", Json.str "x"), ("value", Json.bool true)]) ∧
    (ActionParameter.model_validate
        (Json.obj [("key", Json.str "x"), ("value", Json.num 3.14)])
        = .ok ⟨"x", .num 3.14⟩ ∧
      (ActionParameter.mk "x" (.num 3.14)).model_dump_json
        = Json.obj [("key", Json.str "x"), ("value", Json.num 3.14)]) ∧
    (ActionParameter.model_validate
        (Json.obj [("key", Json.str "x"), ("value", Json.str "left")])
        = .ok ⟨"x", .strv "left"⟩ ∧
      (ActionParameter.mk "x" (.strv "left")).model_dump_json
        = Json.obj [("key", Json.str "x"), ("value", Json.str "left")]) ∧
    (ActionParameter.model_validate
        (Json.obj [("key", Json.str "x"),
          ("value", Json.arr [Json.str "a", Json.str "b"])])
        = .ok ⟨"x", .arr [Json.str "a", Json.str "b"]⟩ ∧
      (ActionParameter.mk "x" (.arr [Json.str "a", Json.str "b"])).model_dump_json
        = Json.obj [("key", Json.str "x"),
            ("value", Json.arr [Json.str "a", Json.str "b"])]) ∧
    (ActionParameter.model_validate
        (Json.obj [("key", Json.str "x"),
          ("value", Json.obj [("k", Json.num 1)])])
        = .ok ⟨"x", .obj [("k", Json.num 1)]⟩ ∧
      (ActionParameter.mk "x" (.obj [("k", Json.num 1)])).model_dump_json
        = Json.obj [("key", Json.str "x"),
            ("value", Json.obj [("k", Json.num 1)])]) :=
  ⟨fun j => by cases j <;> rfl,
   ⟨rfl, rfl⟩, ⟨rfl, rfl⟩, ⟨rfl, rfl⟩, ⟨rfl, rfl⟩, ⟨rfl, rfl⟩⟩

/-- A `NodePosition` input carrying only a `theta` besides the required
fields. -/
def npInput (th : ℚ) : Json :=
  Json.obj [("x", Json.num 0), ("y", Json.num 0), ("theta", Json.num th),
            ("mapId", Json.str "m")]

/-- A `NodePosition` input carrying only an `allowedDeviationXY` besides the
required fields. -/
def devInput (dev : ℚ) : Json :=
  Json.obj [("x", Json.num 0), ("y", Json.num 0),
            ("allowedDeviationXY", Json.num dev), ("mapId", Json.str "m")]

/-- C5, counterexample: the code's bound is the literal `3.14159265359`, which
is strictly greater than `π`, so the value `theta = 3.14159265359` lies
strictly outside the closed interval `[-π, π]` and is nevertheless accepted. -/
theorem C5_above_pi_accepted :
    Real.pi < ((thetaBound : ℚ) : ℝ) ∧
    NodePosition.model_validate (npInput thetaBound) =
      .ok ⟨0, 0, some thetaBound, none, none, "m", none⟩ := by
  constructor
  · have h := Real.pi_lt_d20
    have h2 : (3.14159265358979323847 : ℝ) < ((thetaBound : ℚ) : ℝ) := by
      norm_num [thetaBound]
    linarith
  · have hcond : -thetaBound ≤ thetaBound ∧ thetaBound ≤ thetaBound := by
      norm_num [thetaBound]
    simp [NodePosition.model_validate, npInput, Json.reqNumField,
      Json.optNumFieldRange, Json.optNumFieldGe, Json.reqStrField,
      Json.optStrField, Json.getField, List.lookup,
      Bind.bind, Except.bind, Pure.pure, Except.pure, hcond]

/-- C5, amended: `theta` outside the closed interval
`[-3.14159265359, 3.14159265359]` — the literal bound in the source, slightly
above `π` — is rejected and any `theta` inside it (so in particular every
float approximation of `±π` and the boundaries themselves) is accepted;
a negative `allowedDeviationXY` is rejected and `allowedDeviationXY = 0` is
accepted. -/
theorem C5_range_amended (th dev : ℚ) :
    (¬(-thetaBound ≤ th ∧ th ≤ thetaBound) →
      NodePosition.model_validate (npInput th) = .error (fieldErr "theta")) ∧
    ((-thetaBound ≤ th ∧ th ≤ thetaBound) →
      NodePosition.model_validate (npInput th)
        = .ok ⟨0, 0, some th, none, none, "m", none⟩) ∧
    (dev < 0 →
      NodePosition.model_validate (devInput dev)
        = .error (fieldErr "allowedDeviationXY")) ∧
    (0 ≤ dev →
      NodePosition.model_validate (devInput dev)
        = .ok ⟨0, 0, none, some dev, none, "m", none⟩) := by
  refine ⟨fun h => ?_, fun h => ?_, fun h => ?_, fun h => ?_⟩
  · simp [NodePosition.model_validate, npInput, Json.reqNumField,
      Json.optNumFieldRange, Json.optNumFieldGe, Json.reqStrField,
      Json.optStrField, Json.getField, List.lookup,
      Bind.bind, Except.bind, Pure.pure, Except.pure, h]
  · simp [NodePosition.model_validate, npInput, Json.reqNumField,
      Json.optNumFieldRange, Json.optNumFieldGe, Json.reqStrField,
      Json.optStrField, Json.getField, List.lookup,
      Bind.bind, Except.bind, Pure.pure, Except.pure, h]
  · have h2 : ¬(0 ≤ dev) := not_le.mpr h
    simp [NodePosition.model_validate, devInput, Json.reqNumField,
      Json.optNumFieldRange, Json.optNumFieldGe, Json.reqStrField,
      Json.optStrField, Json.getField, List.lookup,
      Bind.bind, Except.bind, Pure.pure, Except.pure, h2]
  · simp [NodePosition.model_validate, devInput, Json.reqNumField,
      Json.optNumFieldRange, Json.optNumFieldGe, Json.reqStrField,
      Json.optStrField, Json.getField, List.lookup,
      Bind.bind, Except.bind, Pure.pure, Except.pure, h]

/-- C5, witness: both boundary values of `theta` and the zero boundary of
`allowedDeviationXY` are accepted; a `theta` of 4 and a deviation of -1 are
rejected. -/
theorem C5_range_amended_witness :
    NodePosition.model_validate (npInput thetaBound)
      = .ok ⟨0, 0, some thetaBound, none, none, "m", none⟩ ∧
    NodePosition.model_validate (npInput (-thetaBound))
      = .ok ⟨0, 0, some (-thetaBound), none, none, "m", none⟩ ∧
    NodePosition.model_validate (npInput 4) = .error (fieldErr "theta") ∧
    NodePosition.model_validate (devInput 0)
      = .ok ⟨0, 0, none, some 0, none, "m", none⟩ ∧
    NodePosition.model_validate (devInput (-1))
      = .error (fieldErr "allowedDeviationXY") :=
  ⟨(C5_range_amended thetaBound 0).2.1 (by norm_num [thetaBound]),
   (C5_range_amended (-thetaBound) 0).2.1 (by norm_num [thetaBound]),
   (C5_range_amended 4 0).1 (by norm_num [thetaBound]),
   (C5_range_amended 0 0).2.2.2 le_rfl,
   (C5_range_amended 0 (-1)).2.2.1 (by norm_num)⟩

/-- C6, counterexample: constructing a `ControlPoint` without `weight`
yields an entity whose `weight` is `None`, not the documented default `1.0`. -/
theorem C6_weight_counterexample :
    ControlPoint.model_validate (Json.obj [("x", Json.num 0), ("y", Json.num 0)])
      = .ok ⟨0, 0, none⟩ ∧
    (ControlPoint.mk 0 0 none).weight ≠ some 1 := by
  refine ⟨rfl, ?_⟩
  simp

/-- C6, amended: a `ControlPoint` constructed without `weight` stores `None`
for it and serializes it back as `null`: the default `1.0` exists only in the
field's description text, and no value is silently substituted. -/
theorem C6_weight_amended (x y : ℚ) :
    ControlPoint.model_validate (Json.obj [("x", Json.num x), ("y", Json.num y)])
      = .ok ⟨x, y, none⟩ ∧
    (ControlPoint.mk x y none).model_dump_json
      = Json.obj [("x", Json.num x), ("y", Json.num y), ("weight", Json.null)] := by
  constructor
  · simp [ControlPoint.model_validate, Json.reqNumField, Json.optNumFieldGe,
      Json.getField, List.lookup, Bind.bind, Except.bind, Pure.pure, Except.pure]
  · rfl

/-- C7: `create_message` raises the unsupported-message-type error exactly for
unregistered names; for every registered name and every data value — validated
or not — it returns the envelope wrapping the data unchanged, with no
per-field validation. -/
theorem C7_create_message (t : String) (d : Json) :
    (t ∈ registeredNames →
      create_message t d = .ok (Json.obj [("message_type", Json.str t), ("data", d)])) ∧
    (t ∉ registeredNames → create_message t d = .error (unsupportedMsgErr t)) := by
  constructor
  · intro hm
    have hs : (MODEL_TYPE_MAP.lookup t).isSome = true := (mem_registry_iff t).mpr hm
    simp [create_message, hs]
  · intro hm
    have hs : (MODEL_TYPE_MAP.lookup t).isSome = false := by
      cases hfoo : (MODEL_TYPE_MAP.lookup t).isSome with
      | false => rfl
      | true => exact absurd ((mem_registry_iff t).mp hfoo) hm
    simp [create_message, hs]

/-- C7, witness: a registered name wraps junk data unvalidated; an
unregistered name is refused. -/
theorem C7_create_message_witness :
    ("Action" ∈ registeredNames ∧
      create_message "Action" (Json.obj [("foo", Json.num 1)]) =
        .ok (Json.obj [("message_type", Json.str "Action"),
              ("data", Json.obj [("foo", Json.num 1)])])) ∧
    ("AgvFactsheet" ∉ registeredNames ∧
      create_message "AgvFactsheet" (Json.obj []) =
        .error (unsupportedMsgErr "AgvFactsheet")) :=
  ⟨⟨by decide, (C7_create_message "Action" (Json.obj [("foo", Json.num 1)])).1 (by decide)⟩,
   ⟨by decide, (C7_create_message "AgvFactsheet" (Json.obj [])).2 (by decide)⟩⟩

/-- C8: the enum classes `BlockingType` and `CorridorRefPoint` are registered
message-type names, yet decoding an envelope naming either of them fails for
every truthy data payload: the registry resolves them to `Enum` classes, which
have no validating `model_validate` constructor. -/
theorem C8_enum_entries (d : Json) (hd : d.truthy = true) :
    get_model_class "BlockingType" = some ModelClass.BlockingType ∧
    get_model_class "CorridorRefPoint" = some ModelClass.CorridorRefPoint ∧
    to_model (some (Json.obj [("message_type", Json.str "BlockingType"), ("data", d)]))
      = .error (toModelWrap (attrErr "BlockingType" "model_validate")) ∧
    to_model (some (Json.obj [("message_type", Json.str "CorridorRefPoint"), ("data", d)]))
      = .error (toModelWrap (attrErr "CorridorRefPoint" "model_validate")) := by
  refine ⟨rfl, rfl, ?_, ?_⟩ <;>
  cases d <;>
  simp_all [to_model, toModelInner, Json.getField, List.lookup, truthyOpt,
    Json.truthy, ModelClass.model_validate, MODEL_TYPE_MAP]

/-- C8, witness: even the valid enum tags fail to decode through the envelope. -/
theorem C8_enum_entries_witness :
    to_model (some (Json.obj [("message_type", Json.str "BlockingType"),
        ("data", Json.str "NONE")]))
      = .error (toModelWrap (attrErr "BlockingType" "model_validate")) ∧
    to_model (some (Json.obj [("message_type", Json.str "CorridorRefPoint"),
        ("data", Json.str "KINEMATICCENTER")]))
      = .error (toModelWrap (attrErr "CorridorRefPoint" "model_validate")) :=
  ⟨(C8_enum_entries (Json.str "NONE") rfl).2.2.1,
   (C8_enum_entries (Json.str "KINEMATICCENTER") rfl).2.2.2⟩

/-- C9: `Trajectory` construction succeeds for every `degree ≥ 1` and all
well-typed `knotVector` and `controlPoints` lists, with no condition relating
their lengths: the NURBS length relation is neither enforced as a failure nor
surfaced as a warning (the result type has no warning channel). -/
theorem C9_trajectory_no_length_check (deg : ℤ) (kv : List ℚ)
    (cps : List ControlPoint) (h1 : 1 ≤ deg)
    (h2 : cps.all ControlPoint.isValid = true) :
    Trajectory.model_validate (Json.obj [("degree", Json.num (deg : ℚ)),
        ("knotVector", Json.arr (kv.map Json.num)),
        ("controlPoints", Json.arr (cps.map ControlPoint.model_dump_json))])
      = .ok ⟨deg, kv, cps⟩ := by
  simp [Trajectory.model_validate, Json.reqIntFieldGe, Json.getField,
    List.lookup, Rat.den_intCast, Rat.num_intCast, h1, validateNumList_dump,
    ControlPoint.validateList_dump_controlPoint _ h2,
    Bind.bind, Except.bind, Pure.pure, Except.pure]

/-- C9, witness: a trajectory violating the NURBS length relation — six knots
against two control points and degree one, where the relation would demand
four knots — is accepted. -/
theorem C9_trajectory_witness :
    ([(0 : ℚ), 1, 2, 3, 4, 5].length ≠
      ([⟨0, 0, none⟩, ⟨1, 1, some 1⟩] : List ControlPoint).length + 1 + 1) ∧
    Trajectory.model_validate (Json.obj [("degree", Json.num ((1 : ℤ) : ℚ)),
        ("knotVector", Json.arr ([(0 : ℚ), 1, 2, 3, 4, 5].map Json.num)),
        ("controlPoints", Json.arr (([⟨0, 0, none⟩, ⟨1, 1, some 1⟩] :
            List ControlPoint).map ControlPoint.model_dump_json))])
      = .ok ⟨1, [0, 1, 2, 3, 4, 5], [⟨0, 0, none⟩, ⟨1, 1, some 1⟩]⟩ :=
  ⟨by simp,
   C9_trajectory_no_length_check 1 [0, 1, 2, 3, 4, 5]
     [⟨0, 0, none⟩, ⟨1, 1, some 1⟩] (by decide)
     (by simp [ControlPoint.isValid])⟩

/-- C10: every failure of `to_model` and of `from_model` reaches the caller as
the single exception type `ValueError`; different failure kinds share that
type and differ only in message text. -/
theorem C10_single_exception_type (p : Option Json) (m : PyModel) (e₁ e₂ : PyErr) :
    (to_model p = .error e₁ → e₁.etype = "ValueError") ∧
    (from_model m = .error e₂ → e₂.etype = "ValueError") ∧
    (toModelWrap jsonDecodeErr).etype = (toModelWrap missingFieldErr).etype ∧
    (toModelWrap jsonDecodeErr).msg ≠ (toModelWrap missingFieldErr).msg := by
  refine ⟨?_, ?_, rfl, by decide⟩
  · intro h
    unfold to_model at h
    cases hinner : toModelInner p with
    | ok v => simp [hinner] at h
    | error err =>
      simp only [hinner] at h
      have h2 : toModelWrap err = e₁ := by
        cases h
        rfl
      rw [← h2]
      rfl
  · intro h
    unfold from_model at h
    cases hinner : fromModelInner m with
    | ok v => simp [hinner] at h
    | error err =>
      simp only [hinner] at h
      have h2 : fromModelWrap err = e₂ := by
        cases h
        rfl
      rw [← h2]
      rfl

/-- C10, witness: a malformed-input failure of `to_model` and an encoding
failure of `from_model` both carry exception type `ValueError`. -/
theorem C10_single_exception_type_witness :
    (toModelWrap jsonDecodeErr).etype = "ValueError" ∧
    (fromModelWrap (attrErr "BlockingType" "model_dump_json")).etype = "ValueError" :=
  ⟨(C10_single_exception_type none (.enumBlockingType .NONE)
      (toModelWrap jsonDecodeErr)
      (fromModelWrap (attrErr "BlockingType" "model_dump_json"))).1 rfl,
   (C10_single_exception_type none (.enumBlockingType .NONE)
      (toModelWrap jsonDecodeErr)
      (fromModelWrap (attrErr "BlockingType" "model_dump_json"))).2.1 rfl⟩

end VDA5050
